import Mathlib

/-!
# Shallow embedding of the WebXR shooting-gallery core (`src/index.js`)

This file embeds the per-frame simulation core of the repository in Lean 4:
the two inertia filters (blaster low-pass tilt and liquid-sphere spring
tilt), the projectile (bullet) lifecycle with time-to-live expiry and
collision against visible targets, the target respawn callbacks, and the
score display. JavaScript numbers are modelled as rationals (`ℚ`); the
collision test `distance < 1` is modelled as `squared distance < 1`,
which is equivalent for the radius `1` used by the source. The bullets
object keyed by uuid (iterated in insertion order) is modelled as a
`List Bullet`; the scene's set of attached bullet objects is modelled as
the list of their ids.
-/

/-- 3D vector with rational components (models `THREE.Vector3`). -/
structure Vec3 where
  x : ℚ
  y : ℚ
  z : ℚ
  deriving DecidableEq, Repr

/-- Componentwise addition (`Vector3.add`). -/
def Vec3.add (a b : Vec3) : Vec3 := ⟨a.x + b.x, a.y + b.y, a.z + b.z⟩

/-- Componentwise subtraction (`Vector3.sub`). -/
def Vec3.sub (a b : Vec3) : Vec3 := ⟨a.x - b.x, a.y - b.y, a.z - b.z⟩

/-- Scalar multiplication (`Vector3.multiplyScalar`). -/
def Vec3.smul (a : Vec3) (c : ℚ) : Vec3 := ⟨a.x * c, a.y * c, a.z * c⟩

/-- Scalar division (`Vector3.divideScalar`). -/
def Vec3.divScalar (a : Vec3) (c : ℚ) : Vec3 := ⟨a.x / c, a.y / c, a.z / c⟩

/-- Squared Euclidean distance. The source tests
`target.position.distanceTo(bullet.position) < 1`; since both sides are
nonnegative, `dist < 1 ↔ dist² < 1`, so the embedding compares the
square against `1` to stay inside `ℚ`. -/
def Vec3.distSq (a b : Vec3) : ℚ :=
  (a.x - b.x) ^ 2 + (a.y - b.y) ^ 2 + (a.z - b.z) ^ 2

/-- `THREE.MathUtils.clamp(value, lo, hi) = max(lo, min(hi, value))`. -/
def clampQ (value lo hi : ℚ) : ℚ := max lo (min hi value)

/-- `const bulletSpeed = 10`. -/
def bulletSpeed : ℚ := 10

/-- `const bulletTimeToLive = 1`. -/
def bulletTimeToLive : ℚ := 1

/-- `const forwardVector = new THREE.Vector3(0, 0, -1)`. -/
def forwardVector : Vec3 := ⟨0, 0, -1⟩

/-- `blasterInertia.sensitivity = 2.5`. -/
def blasterSensitivity : ℚ := 2.5

/-- `blasterInertia.damping = 8`. -/
def blasterDamping : ℚ := 8

/-- `blasterInertia.maxTilt = 0.12`. -/
def blasterMaxTilt : ℚ := 0.12

/-- `liquidSphereInertia.sensitivity = 3`. -/
def liquidSensitivity : ℚ := 3

/-- `liquidSphereInertia.spring = 12`. -/
def liquidSpring : ℚ := 12

/-- `liquidSphereInertia.damping = 4`. -/
def liquidDamping : ℚ := 4

/-- `liquidSphereInertia.maxTilt = 0.18`. -/
def liquidMaxTilt : ℚ := 0.18

/-- Velocity estimate used by both filters:
`(pos - prevPos).divideScalar(Math.max(delta, 0.001))`. -/
def refVelocity (delta : ℚ) (pos prevPos : Vec3) : Vec3 :=
  (pos.sub prevPos).divScalar (max delta 0.001)

/-- Mutable state of the blaster low-pass tilt filter (`blasterInertia`). -/
structure BlasterInertia where
  prevPos : Vec3
  tiltY : ℚ
  tiltZ : ℚ
  deriving DecidableEq, Repr

/-- `targetTiltY = clamp(-velocity.x * sensitivity, -maxTilt, maxTilt)`. -/
def blasterTargetY (v : Vec3) : ℚ :=
  clampQ (-v.x * blasterSensitivity) (-blasterMaxTilt) blasterMaxTilt

/-- `targetTiltZ = clamp(velocity.z * sensitivity * 0.5, -maxTilt, maxTilt)`. -/
def blasterTargetZ (v : Vec3) : ℚ :=
  clampQ (v.z * blasterSensitivity * 0.5) (-blasterMaxTilt) blasterMaxTilt

/-- Blend factor `Math.min(1, blasterInertia.damping * delta)`. -/
def lowpassFactor (delta : ℚ) : ℚ := min 1 (blasterDamping * delta)

/-- One frame of the blaster tilt update (source lines 224-241):
estimate velocity from the position delta, clamp the per-axis targets,
and blend each tilt toward its target by `min(1, damping * delta)`. -/
def blasterUpdate (delta : ℚ) (currentPos : Vec3) (st : BlasterInertia) :
    BlasterInertia :=
  let v := refVelocity delta currentPos st.prevPos
  { prevPos := currentPos
    tiltY := st.tiltY + (blasterTargetY v - st.tiltY) * lowpassFactor delta
    tiltZ := st.tiltZ + (blasterTargetZ v - st.tiltZ) * lowpassFactor delta }

/-- Mutable state of the liquid-sphere spring filter (`liquidSphereInertia`). -/
structure LiquidInertia where
  prevPos : Vec3
  tiltX : ℚ
  tiltY : ℚ
  tiltZ : ℚ
  velX : ℚ
  velY : ℚ
  velZ : ℚ
  deriving DecidableEq, Repr

/-- `targetX = clamp(-refVelocity.x * sensitivity * 0.8, -maxTilt, maxTilt)`. -/
def liquidTargetX (v : Vec3) : ℚ :=
  clampQ (-v.x * liquidSensitivity * 0.8) (-liquidMaxTilt) liquidMaxTilt

/-- `targetY = clamp(-refVelocity.x * sensitivity, -maxTilt, maxTilt)`. -/
def liquidTargetY (v : Vec3) : ℚ :=
  clampQ (-v.x * liquidSensitivity) (-liquidMaxTilt) liquidMaxTilt

/-- `targetZ = clamp(refVelocity.z * sensitivity * 0.5, -maxTilt, maxTilt)`. -/
def liquidTargetZ (v : Vec3) : ℚ :=
  clampQ (v.z * liquidSensitivity * 0.5) (-liquidMaxTilt) liquidMaxTilt

/-- One frame of the liquid-sphere spring update (source lines 177-206):
semi-implicit Euler of a damped oscillator. Each axis does
`vel += (target - tilt) * (spring * delta) - vel * (damping * delta)`
followed by `tilt += vel * delta` with the freshly updated velocity.
Only the target is clamped; the tilt itself is not. -/
def liquidUpdate (delta : ℚ) (refPos : Vec3) (st : LiquidInertia) :
    LiquidInertia :=
  let v := refVelocity delta refPos st.prevPos
  let d := liquidDamping * delta
  let s := liquidSpring * delta
  let vX := st.velX + (liquidTargetX v - st.tiltX) * s - st.velX * d
  let vY := st.velY + (liquidTargetY v - st.tiltY) * s - st.velY * d
  let vZ := st.velZ + (liquidTargetZ v - st.tiltZ) * s - st.velZ * d
  { prevPos := refPos
    tiltX := st.tiltX + vX * delta
    tiltY := st.tiltY + vY * delta
    tiltZ := st.tiltZ + vZ * delta
    velX := vX
    velY := vY
    velZ := vZ }

/-- `clampedScore = Math.max(0, Math.min(9999, score))`. -/
def clampedScore (score : Int) : Int := max 0 (min 9999 score)

/-- `String.prototype.padStart(targetLen, c)`: left-pad with `c` up to
`targetLen` characters, returning the string unchanged if already long
enough. -/
def padStart (s : String) (targetLen : Nat) (c : Char) : String :=
  if targetLen ≤ s.length then s
  else String.mk (List.replicate (targetLen - s.length) c) ++ s

/-- `updateScoreDisplay` (source lines 62-67) as a pure function from the
stored score to the rendered string:
`clampedScore.toString().padStart(4, '0')`. The stored score itself is
not written by this function. -/
def updateScoreDisplay (score : Int) : String :=
  padStart (toString (clampedScore score)) 4 '0'

/-- Modelled from the spec: "`render()`: display value =
clamp(score, 0, 9999), left-zero-padded to 4 digits as text", written
directly from those words for refinement comparison with
`updateScoreDisplay`. -/
def specRender (score : Int) : String :=
  padStart (toString (max 0 (min 9999 score))) 4 '0'

/-- Quaternion with rational components (models `THREE.Quaternion`). -/
structure Quat where
  x : ℚ
  y : ℚ
  z : ℚ
  w : ℚ
  deriving DecidableEq, Repr

/-- `THREE.Vector3.applyQuaternion` (the optimized two-cross-product
formula used by three.js). -/
def Vec3.applyQuaternion (v : Vec3) (q : Quat) : Vec3 :=
  let tx := 2 * (q.y * v.z - q.z * v.y)
  let ty := 2 * (q.z * v.x - q.x * v.z)
  let tz := 2 * (q.x * v.y - q.y * v.x)
  { x := v.x + q.w * tx + q.y * tz - q.z * ty
    y := v.y + q.w * ty + q.z * tx - q.x * tz
    z := v.z + q.w * tz + q.x * ty - q.y * tx }

/-- A live projectile: the cloned bullet object together with its
`userData` fields. `id` models the object's `uuid` key in the `bullets`
registry. -/
structure Bullet where
  id : Nat
  position : Vec3
  velocity : Vec3
  timeToLive : ℚ
  deriving DecidableEq, Repr

/-- Phase of a target in the respawn cycle, implicit in the source's
chain of tween / timeout callbacks. -/
inductive TargetPhase
  | active
  | shrinking
  | hidden
  | growing
  deriving DecidableEq, Repr

/-- A target object: world position, `visible` flag, uniform scale, and
the (implicit) respawn phase. -/
structure Target where
  position : Vec3
  visible : Bool
  scale : ℚ
  phase : TargetPhase
  deriving DecidableEq, Repr

/-- Hit reaction on a target (source lines 293-314): start the
0.3-second shrink tween of `target.scale` toward zero. The `visible`
flag is NOT touched here; it is only set false by the tween's
`onComplete` callback. -/
def onHit (t : Target) : Target := { t with phase := .shrinking }

/-- The shrink tween's `onComplete` callback (source lines 298-299):
scale has reached zero and `target.visible = false` is set; the
1000 ms respawn timeout is scheduled. -/
def onShrinkComplete (t : Target) : Target :=
  { t with scale := 0, visible := false, phase := .hidden }

/-- The respawn `setTimeout` callback (source lines 300-311):
`visible = true`, the target is repositioned to a fresh random
`x = random()*10-5` and `z = -random()*5-5` (passed here as the
parameters `rx`, `rz`), and the grow tween starts. -/
def onRespawnDelay (rx rz : ℚ) (t : Target) : Target :=
  { t with visible := true
           position := { x := rx, y := t.position.y, z := rz }
           phase := .growing }

/-- Completion of the grow tween (source lines 306-311): scale back to 1. -/
def onGrowComplete (t : Target) : Target :=
  { t with scale := 1, phase := .active }

/-- An asynchronous target-animation event, dispatched to one target. -/
inductive TargetEvent
  | shrinkComplete
  | respawnDelay (rx rz : ℚ)
  | growComplete
  deriving DecidableEq, Repr

/-- Dispatch one animation event to a target. -/
def targetStep : TargetEvent → Target → Target
  | .shrinkComplete, t => onShrinkComplete t
  | .respawnDelay rx rz, t => onRespawnDelay rx rz t
  | .growComplete, t => onGrowComplete t

/-- `targets.filter((target) => target.visible)` membership plus the
distance test of line 288-289: a target participates in a hit exactly
when it is visible and its squared distance to the bullet is below 1. -/
def hitTest (t : Target) (p : Vec3) : Bool :=
  t.visible && decide (Vec3.distSq t.position p < 1)

/-- Indices (counting from `k`) of the targets that pass `hitTest`,
in list order — the iteration order of the source's `forEach`. -/
def hitIndicesFrom (p : Vec3) : List Target → Nat → List Nat
  | [], _ => []
  | t :: rest, k =>
    if hitTest t p then k :: hitIndicesFrom p rest (k + 1)
    else hitIndicesFrom p rest (k + 1)

/-- Indices of the visible targets within hit range of point `p`,
in insertion order. The source's inner loop has no early exit, so every
such target is visited. -/
def hitIndices (ts : List Target) (p : Vec3) : List Nat :=
  hitIndicesFrom p ts 0

/-- Advance a bullet by one frame (source lines 281-283):
`position += velocity * delta; timeToLive -= delta`. -/
def advanceBullet (delta : ℚ) (b : Bullet) : Bullet :=
  { b with position := b.position.add (b.velocity.smul delta)
           timeToLive := b.timeToLive - delta }

/-- Per-bullet body of the `Object.values(bullets).forEach` loop
(source lines 275-322). Returns the bullet as kept in the registry
(`none` when deleted) and the indices of the targets it hit this frame.
An expired bullet (`timeToLive < 0`) is deleted before any movement or
collision test. A live bullet is advanced, then tested against every
visible target; it is deleted when it hit at least one. -/
def processBullet (delta : ℚ) (ts : List Target) (b : Bullet) :
    Option Bullet × List Nat :=
  if b.timeToLive < 0 then (none, [])
  else
    let b' := advanceBullet delta b
    let hs := hitIndices ts b'.position
    (if hs = [] then some b' else none, hs)

/-- The whole bullets loop over the snapshot `Object.values(bullets)`:
returns the surviving bullets (registry after the frame), the scene's
bullet-id list after the frame, and the concatenated hit-index lists.
`delete bullets[bullet.uuid]` and `scene.remove(bullet)` always occur
together in the source, so a deleted bullet's id is erased from the
scene list at the same recursion step. (The double-hit case deletes the
same uuid twice in the source; both repeats are no-ops, modelled by a
single erase.) -/
def stepBulletsScene (delta : ℚ) (ts : List Target) :
    List Bullet → List Nat → List Bullet × List Nat × List Nat
  | [], scn => ([], scn, [])
  | b :: rest, scn =>
    match processBullet delta ts b with
    | (some b', hs) =>
      let r := stepBulletsScene delta ts rest scn
      (b' :: r.1, r.2.1, hs ++ r.2.2)
    | (none, hs) =>
      let r := stepBulletsScene delta ts rest (scn.erase b.id)
      (r.1, r.2.1, hs ++ r.2.2)

/-- Replace the element at an index (no-op when out of range); used to
apply a hit reaction to the target it struck. -/
def modifyAt (f : Target → Target) : Nat → List Target → List Target
  | _, [] => []
  | 0, t :: ts => f t :: ts
  | n + 1, t :: ts => t :: modifyAt f n ts

/-- Apply the per-hit target reactions, in hit order. -/
def applyHits (ts : List Target) (hits : List Nat) : List Target :=
  hits.foldl (fun acc i => modifyAt onHit i acc) ts

/-- The module-level mutable state touched by the bullets loop:
the `bullets` registry (in insertion order), the ids of the bullet
objects attached to the scene, the `targets` array, and `score`. -/
structure SimState where
  bullets : List Bullet
  sceneBullets : List Nat
  targets : List Target
  score : Int
  deriving DecidableEq, Repr

/-- One frame of the bullet/target/score part of `onFrame`
(source lines 275-322): run the bullets loop, start the shrink reaction
on every target hit, and add 10 points per hit (`score += 10` inside the
target loop). -/
def stepFrame (delta : ℚ) (st : SimState) : SimState :=
  let r := stepBulletsScene delta st.targets st.bullets st.sceneBullets
  { bullets := r.1
    sceneBullets := r.2.1
    targets := applyHits st.targets r.2.2
    score := st.score + 10 * (r.2.2.length : Int) }

/-- Build the bullet spawned by the trigger handler (source lines
258-270): the template clone is placed at the template's world position
and orientation, its velocity is the forward axis rotated by that
orientation and scaled by `bulletSpeed`, and `timeToLive` starts at
`bulletTimeToLive`. -/
def mkBullet (uuid : Nat) (pos : Vec3) (q : Quat) : Bullet :=
  { id := uuid
    position := pos
    velocity := (forwardVector.applyQuaternion q).smul bulletSpeed
    timeToLive := bulletTimeToLive }

/-- The fire-trigger spawn path (source lines 256-271):
`const bulletPrototype = blasterGroup.getObjectByName('bullet'); if
(bulletPrototype) { ... }`. When the template is absent (`none`, the
asset not yet loaded) the body is skipped entirely: no bullet is
created, registry and scene are untouched, and no exception can arise
(the function is total). When present, the new bullet is added to the
scene and registered. -/
def fireTrigger (template : Option (Nat × Vec3 × Quat)) (st : SimState) :
    SimState :=
  match template with
  | none => st
  | some (uuid, pos, q) =>
    let b := mkBullet uuid pos q
    { st with bullets := st.bullets ++ [b]
              sceneBullets := st.sceneBullets ++ [b.id] }

/-- The external events that drive the module state between and during
frames: a frame step, a trigger press (with the template when loaded),
the asset-loader callback appending a freshly loaded target, and the
asynchronous tween/timeout callbacks of one target's respawn cycle. -/
inductive GameEvent
  | frame (delta : ℚ)
  | fire (template : Option (Nat × Vec3 × Quat))
  | addTarget (t : Target)
  | targetAnim (i : Nat) (e : TargetEvent)

/-- Apply one event to the module state. Only `frame` can change the
score. -/
def applyEvent : GameEvent → SimState → SimState
  | .frame delta, st => stepFrame delta st
  | .fire template, st => fireTrigger template st
  | .addTarget t, st => { st with targets := st.targets ++ [t] }
  | .targetAnim i e, st =>
    { st with targets := modifyAt (targetStep e) i st.targets }

/-- Module-load state: empty registry and scene, no targets yet,
`let score = 0`. -/
def initState : SimState :=
  { bullets := [], sceneBullets := [], targets := [], score := 0 }

/-- Run a sequence of events from the module-load state. -/
def run (evs : List GameEvent) : SimState :=
  evs.foldl (fun st e => applyEvent e st) initState

/-! ## Helper lemmas -/

/-- A blend `a + (b - a) * f` with factor `f ∈ [0, 1]` lands between `a`
and `b` (inclusive). -/
lemma blend_between (a b f : ℚ) (h0 : 0 ≤ f) (h1 : f ≤ 1) :
    min a b ≤ a + (b - a) * f ∧ a + (b - a) * f ≤ max a b := by
  rcases le_total a b with hab | hab
  · rw [min_eq_left hab, max_eq_right hab]
    constructor <;> nlinarith
  · rw [min_eq_right hab, max_eq_left hab]
    constructor <;> nlinarith

/-- The low-pass blend factor is in `[0, 1]` whenever `delta ≥ 0`. -/
lemma lowpassFactor_mem (delta : ℚ) (h : 0 ≤ delta) :
    0 ≤ lowpassFactor delta ∧ lowpassFactor delta ≤ 1 := by
  unfold lowpassFactor blasterDamping
  constructor
  · exact le_min (by norm_num) (by nlinarith)
  · exact min_le_left _ _

/-- `clampQ` lands in `[lo, hi]` whenever `lo ≤ hi`. -/
lemma clampQ_mem (value lo hi : ℚ) (h : lo ≤ hi) :
    lo ≤ clampQ value lo hi ∧ clampQ value lo hi ≤ hi := by
  unfold clampQ
  exact ⟨le_max_left _ _, max_le h (min_le_left _ _)⟩

/-- The clamped blaster target tilts are bounded by `blasterMaxTilt` in
absolute value. -/
lemma blasterTarget_abs_le (v : Vec3) :
    |blasterTargetY v| ≤ blasterMaxTilt ∧ |blasterTargetZ v| ≤ blasterMaxTilt := by
  have h : -blasterMaxTilt ≤ blasterMaxTilt := by norm_num [blasterMaxTilt]
  have hY := clampQ_mem (-v.x * blasterSensitivity) _ _ h
  have hZ := clampQ_mem (v.z * blasterSensitivity * 0.5) _ _ h
  unfold blasterTargetY blasterTargetZ
  constructor <;> rw [abs_le] <;> exact ⟨by tauto, by tauto⟩

/-- The blaster tilt update on each axis stays between the previous tilt
and the clamped target. -/
lemma blasterUpdate_between (delta : ℚ) (h : 0 ≤ delta) (pos : Vec3)
    (st : BlasterInertia) :
    (min st.tiltY (blasterTargetY (refVelocity delta pos st.prevPos)) ≤
        (blasterUpdate delta pos st).tiltY ∧
      (blasterUpdate delta pos st).tiltY ≤
        max st.tiltY (blasterTargetY (refVelocity delta pos st.prevPos))) ∧
    (min st.tiltZ (blasterTargetZ (refVelocity delta pos st.prevPos)) ≤
        (blasterUpdate delta pos st).tiltZ ∧
      (blasterUpdate delta pos st).tiltZ ≤
        max st.tiltZ (blasterTargetZ (refVelocity delta pos st.prevPos))) := by
  obtain ⟨h0, h1⟩ := lowpassFactor_mem delta h
  exact ⟨blend_between _ _ _ h0 h1, blend_between _ _ _ h0 h1⟩

/-- Membership in `hitIndicesFrom`: exactly the offsets of the targets
that pass `hitTest`. -/
lemma mem_hitIndicesFrom (p : Vec3) :
    ∀ (ts : List Target) (k i : Nat),
      i ∈ hitIndicesFrom p ts k ↔
        ∃ j t, ts.get? j = some t ∧ i = k + j ∧ hitTest t p = true := by
  intro ts
  induction ts with
  | nil => intro k i; simp [hitIndicesFrom]
  | cons t rest ih =>
    intro k i
    by_cases hht : hitTest t p = true
    · simp only [hitIndicesFrom, if_pos hht, List.mem_cons, ih]
      constructor
      · rintro (rfl | ⟨j, t', hget, rfl, htest⟩)
        · exact ⟨0, t, rfl, by omega, hht⟩
        · exact ⟨j + 1, t', hget, by omega, htest⟩
      · rintro ⟨j, t', hget, rfl, htest⟩
        cases j with
        | zero => left; omega
        | succ j' => exact Or.inr ⟨j', t', hget, by omega, htest⟩
    · simp only [hitIndicesFrom, if_neg hht, ih]
      constructor
      · rintro ⟨j, t', hget, rfl, htest⟩
        exact ⟨j + 1, t', hget, by omega, htest⟩
      · rintro ⟨j, t', hget, rfl, htest⟩
        cases j with
        | zero =>
          obtain rfl : t = t' := by simpa using hget
          exact absurd htest hht
        | succ j' => exact ⟨j', t', hget, by omega, htest⟩

/-- A target index is hit exactly when that target is visible and within
squared distance 1 of the point. -/
lemma mem_hitIndices (ts : List Target) (p : Vec3) (i : Nat) (t : Target)
    (hget : ts.get? i = some t) :
    i ∈ hitIndices ts p ↔ (t.visible = true ∧ Vec3.distSq t.position p < 1) := by
  rw [hitIndices, mem_hitIndicesFrom]
  constructor
  · rintro ⟨j, t', hget', hij, htest⟩
    obtain rfl : j = i := by omega
    rw [hget] at hget'
    obtain rfl : t = t' := by simpa using hget'
    simpa [hitTest] using htest
  · intro hcond
    exact ⟨i, t, hget, by omega, by simpa [hitTest] using hcond⟩

/-- An expired bullet is deleted before movement and produces no hits,
regardless of the frame delta or the targets. -/
lemma processBullet_expired (delta : ℚ) (ts : List Target) (b : Bullet)
    (h : b.timeToLive < 0) : processBullet delta ts b = (none, []) := by
  simp [processBullet, h]

/-- A live bullet is advanced and tested against the targets; it is kept
exactly when the hit list is empty. -/
lemma processBullet_live (delta : ℚ) (ts : List Target) (b : Bullet)
    (h : ¬ b.timeToLive < 0) :
    processBullet delta ts b =
      (if hitIndices ts (advanceBullet delta b).position = []
          then some (advanceBullet delta b) else none,
        hitIndices ts (advanceBullet delta b).position) := by
  simp [processBullet, h]

/-- `advanceBullet` does not change the bullet's id. -/
lemma advanceBullet_id (delta : ℚ) (b : Bullet) :
    (advanceBullet delta b).id = b.id := rfl

/-- Membership in the post-frame registry: exactly the advanced images
of the bullets that were alive at frame start and hit nothing. -/
lemma stepBulletsScene_fst_mem (delta : ℚ) (ts : List Target) :
    ∀ (bs : List Bullet) (scn : List Nat) (b' : Bullet),
      b' ∈ (stepBulletsScene delta ts bs scn).1 ↔
        ∃ b ∈ bs, ¬ b.timeToLive < 0 ∧ b' = advanceBullet delta b ∧
          hitIndices ts (advanceBullet delta b).position = [] := by
  intro bs
  induction bs with
  | nil => intro scn b'; simp [stepBulletsScene]
  | cons b rest ih =>
    intro scn b'
    by_cases hexp : b.timeToLive < 0
    · have hpb := processBullet_expired delta ts b hexp
      simp only [stepBulletsScene, hpb, List.mem_cons, ih]
      constructor
      · rintro ⟨b₀, hmem, hP⟩
        exact ⟨b₀, Or.inr hmem, hP⟩
      · rintro ⟨b₀, rfl | hmem, hlive, hP⟩
        · exact absurd hexp hlive
        · exact ⟨b₀, hmem, hlive, hP⟩
    · have hpb := processBullet_live delta ts b hexp
      by_cases hhits : hitIndices ts (advanceBullet delta b).position = []
      · rw [if_pos hhits] at hpb
        simp only [stepBulletsScene, hpb, List.mem_cons, ih]
        constructor
        · rintro (rfl | ⟨b₀, hmem, hP⟩)
          · exact ⟨b, Or.inl rfl, hexp, rfl, hhits⟩
          · exact ⟨b₀, Or.inr hmem, hP⟩
        · rintro ⟨b₀, rfl | hmem, hlive, hadv, hP⟩
          · exact Or.inl hadv
          · exact Or.inr ⟨b₀, hmem, hlive, hadv, hP⟩
      · rw [if_neg hhits] at hpb
        simp only [stepBulletsScene, hpb, List.mem_cons, ih]
        constructor
        · rintro ⟨b₀, hmem, hP⟩
          exact ⟨b₀, Or.inr hmem, hP⟩
        · rintro ⟨b₀, rfl | hmem, hlive, hadv, hP⟩
          · exact absurd hP hhits
          · exact ⟨b₀, hmem, hlive, hadv, hP⟩

/-- Registry/scene synchronisation through the bullets loop: if the
scene's bullet ids are `pre ++ bs.map id` with `pre` untouched by this
loop and the registered ids distinct, then after the loop the scene
holds exactly `pre` plus the ids of the surviving bullets. -/
lemma stepBulletsScene_scene_sync (delta : ℚ) (ts : List Target) :
    ∀ (bs : List Bullet) (pre : List Nat),
      (bs.map Bullet.id).Nodup →
      (∀ i ∈ pre, i ∉ bs.map Bullet.id) →
      (stepBulletsScene delta ts bs (pre ++ bs.map Bullet.id)).2.1 =
        pre ++ ((stepBulletsScene delta ts bs (pre ++ bs.map Bullet.id)).1).map
          Bullet.id := by
  intro bs
  induction bs with
  | nil => intro pre _ _; simp [stepBulletsScene]
  | cons b rest ih =>
    intro pre hnd hdisj
    have hndTail : (rest.map Bullet.id).Nodup := (List.nodup_cons.mp hnd).2
    have hidTail : b.id ∉ rest.map Bullet.id := (List.nodup_cons.mp hnd).1
    have hpre : b.id ∉ pre := by
      intro hmem
      exact hdisj b.id hmem (by simp)
    have herase :
        (pre ++ List.map Bullet.id (b :: rest)).erase b.id =
          pre ++ rest.map Bullet.id := by
      rw [List.map_cons, List.erase_append_right _ hpre, List.erase_cons_head]
    by_cases hexp : b.timeToLive < 0
    · have hpb := processBullet_expired delta ts b hexp
      simp only [stepBulletsScene, hpb, herase]
      exact ih pre hndTail fun i hi => by
        have := hdisj i hi
        simp only [List.map_cons, List.mem_cons] at this
        exact fun hmem => this (Or.inr hmem)
    · have hpb := processBullet_live delta ts b hexp
      by_cases hhits : hitIndices ts (advanceBullet delta b).position = []
      · rw [if_pos hhits] at hpb
        have hdisj' : ∀ i ∈ pre ++ [b.id], i ∉ rest.map Bullet.id := by
          intro i hi
          rcases List.mem_append.mp hi with hi | hi
          · have := hdisj i hi
            simp only [List.map_cons, List.mem_cons] at this
            exact fun hmem => this (Or.inr hmem)
          · obtain rfl : i = b.id := by simpa using hi
            exact hidTail
        have h2 := ih (pre ++ [b.id]) hndTail hdisj'
        simp only [List.append_assoc, List.singleton_append] at h2
        simp only [stepBulletsScene, hpb, List.map_cons, advanceBullet_id]
        exact h2
      · rw [if_neg hhits] at hpb
        simp only [stepBulletsScene, hpb, herase]
        exact ih pre hndTail fun i hi => by
          have := hdisj i hi
          simp only [List.map_cons, List.mem_cons] at this
          exact fun hmem => this (Or.inr hmem)

/-- No event ever decreases the stored score. -/
lemma applyEvent_score_mono (e : GameEvent) (st : SimState) :
    st.score ≤ (applyEvent e st).score := by
  cases e with
  | frame delta =>
    simp only [applyEvent, stepFrame]
    have : (0 : Int) ≤ 10 * ((stepBulletsScene delta st.targets st.bullets
        st.sceneBullets).2.2.length : Int) := by positivity
    omega
  | fire template =>
    cases template with
    | none => simp [applyEvent, fireTrigger]
    | some t => simp [applyEvent, fireTrigger]
  | addTarget t => simp [applyEvent]
  | targetAnim i e => simp [applyEvent]

/-- Every event preserves divisibility of the score by 10. -/
lemma applyEvent_score_dvd (e : GameEvent) (st : SimState)
    (h : (10 : Int) ∣ st.score) : (10 : Int) ∣ (applyEvent e st).score := by
  cases e with
  | frame delta =>
    simp only [applyEvent, stepFrame]
    exact dvd_add h (dvd_mul_right 10 _)
  | fire template =>
    cases template with
    | none => simpa [applyEvent, fireTrigger] using h
    | some t => simpa [applyEvent, fireTrigger] using h
  | addTarget t => simpa [applyEvent] using h
  | targetAnim i e => simpa [applyEvent] using h

/-- Score invariant through any event sequence, generalised over the
starting state. -/
lemma foldl_score_invariant :
    ∀ (evs : List GameEvent) (st : SimState),
      0 ≤ st.score → (10 : Int) ∣ st.score →
      0 ≤ (evs.foldl (fun s e => applyEvent e s) st).score ∧
        (10 : Int) ∣ (evs.foldl (fun s e => applyEvent e s) st).score := by
  intro evs
  induction evs with
  | nil => intro st h0 hd; exact ⟨h0, hd⟩
  | cons e rest ih =>
    intro st h0 hd
    simp only [List.foldl_cons]
    exact ih _ (le_trans h0 (applyEvent_score_mono e st))
      (applyEvent_score_dvd e st hd)

/-! ## Concrete states used by counterexamples and witnesses -/

/-- A freshly fired bullet sitting at the origin. -/
def exBullet : Bullet :=
  { id := 7, position := ⟨0, 0, 0⟩, velocity := ⟨0, 0, 0⟩, timeToLive := 1 }

/-- A visible target at the origin. -/
def exTargetA : Target :=
  { position := ⟨0, 0, 0⟩, visible := true, scale := 1, phase := .active }

/-- A second visible target, also within hit range of the origin. -/
def exTargetB : Target :=
  { position := ⟨0, 0, 0⟩, visible := true, scale := 1, phase := .active }

/-- One live bullet sitting inside the hit radius of two visible
targets. -/
def exC1State : SimState :=
  { bullets := [exBullet], sceneBullets := [7],
    targets := [exTargetA, exTargetB], score := 0 }

/-- A bullet with one second of life left. -/
def exC3Bullet : Bullet :=
  { id := 3, position := ⟨0, 0, 0⟩, velocity := ⟨0, 0, 0⟩, timeToLive := 1 }

/-- A registry holding only `exC3Bullet`, with no targets. -/
def exC3State : SimState :=
  { bullets := [exC3Bullet], sceneBullets := [3], targets := [], score := 0 }

/-- A liquid-filter state at rest (all tilts and velocities zero) whose
reference body was at `x = 1` on the previous frame. -/
def exLiquid : LiquidInertia :=
  { prevPos := ⟨1, 0, 0⟩, tiltX := 0, tiltY := 0, tiltZ := 0,
    velX := 0, velY := 0, velZ := 0 }

/-- A blaster-filter state at rest at the origin. -/
def exBlaster : BlasterInertia :=
  { prevPos := ⟨0, 0, 0⟩, tiltY := 0, tiltZ := 0 }

/-- A bullet that has already outlived its time to live. -/
def exExpired : Bullet :=
  { id := 9, position := ⟨2, 0, 0⟩, velocity := ⟨1, 0, 0⟩, timeToLive := -1 }

/-- A state whose stored score already exceeds the display maximum, with
one more hit about to land. -/
def exC6State : SimState :=
  { bullets := [exBullet], sceneBullets := [7], targets := [exTargetA],
    score := 15000 }


/-! ## Claims -/

/-- C1, counterexample. The claim says a projectile within the hit
radius of two visible targets is consumed by the first (insertion-order)
target only and "scores exactly once, against the earlier-inserted
target, never both". On the code, the inner target loop has no early
exit: one bullet inside the radius of two visible targets hits BOTH
(hit list `[0, 1]`), both targets start shrinking, and the score rises
by 20, not 10. -/
theorem C1_counterexample :
    (processBullet 0 [exTargetA, exTargetB] exBullet).2 = [0, 1] ∧
    (stepFrame 0 exC1State).score = 20 ∧
    (stepFrame 0 exC1State).targets.map Target.phase =
      [.shrinking, .shrinking] := by
  refine ⟨?_, ?_⟩
  · norm_num [processBullet, exBullet, exTargetA, exTargetB, advanceBullet,
      hitIndices, hitIndicesFrom, hitTest, Vec3.distSq, Vec3.add, Vec3.smul]
  · norm_num [stepFrame, exC1State, stepBulletsScene, processBullet, exBullet,
      exTargetA, exTargetB, advanceBullet, hitIndices, hitIndicesFrom, hitTest,
      Vec3.distSq, Vec3.add, Vec3.smul, applyHits, modifyAt, onHit,
      List.cons_ne_nil]

/-- C1 (amended): per frame, a live projectile is tested against EVERY
visible target in insertion order; its hit list contains exactly the
indices of the visible targets whose position is within Euclidean
distance 1 of the projectile's advanced position (so it can score more
than once), and the projectile is removed from the registry exactly when
that list is nonempty. -/
theorem C1_amended (delta : ℚ) (ts : List Target) (b : Bullet)
    (hlive : ¬ b.timeToLive < 0) (i : Nat) (t : Target)
    (hget : ts.get? i = some t) :
    (i ∈ (processBullet delta ts b).2 ↔
      (t.visible = true ∧
        Vec3.distSq t.position (advanceBullet delta b).position < 1)) ∧
    ((processBullet delta ts b).1 = none ↔
      (processBullet delta ts b).2 ≠ []) := by
  rw [processBullet_live delta ts b hlive]
  refine ⟨mem_hitIndices ts _ i t hget, ?_⟩
  by_cases h : hitIndices ts (advanceBullet delta b).position = [] <;> simp [h]

/-- C1, witness for the amended theorem at a concrete input. -/
theorem C1_amended_witness :
    (¬ exBullet.timeToLive < 0) ∧
    [exTargetA].get? 0 = some exTargetA ∧
    ((0 ∈ (processBullet 0 [exTargetA] exBullet).2 ↔
      (exTargetA.visible = true ∧
        Vec3.distSq exTargetA.position (advanceBullet 0 exBullet).position < 1)) ∧
    ((processBullet 0 [exTargetA] exBullet).1 = none ↔
      (processBullet 0 [exTargetA] exBullet).2 ≠ [])) :=
  ⟨by norm_num [exBullet], rfl,
    C1_amended 0 [exTargetA] exBullet (by norm_num [exBullet]) 0 exTargetA rfl⟩

/-- C2, counterexample. The claim asserts both filter variants keep all
tilt outputs within `[-maxTilt, maxTilt]` whenever they start in that
interval and `delta ≥ 0`. The spring (liquid) variant clamps only the
TARGET tilt, not the integrated tilt: starting from rest (all tilts and
velocities zero, well inside the interval) with `delta = 1` and a
reference-body displacement of one unit, the updated `tiltX` is `2.16`,
far beyond `maxTilt = 0.18`. -/
theorem C2_counterexample :
    |exLiquid.tiltX| ≤ liquidMaxTilt ∧ |exLiquid.tiltY| ≤ liquidMaxTilt ∧
    |exLiquid.tiltZ| ≤ liquidMaxTilt ∧ (0 : ℚ) ≤ 1 ∧
    liquidMaxTilt < (liquidUpdate 1 ⟨0, 0, 0⟩ exLiquid).tiltX := by
  norm_num [liquidUpdate, exLiquid, refVelocity, liquidTargetX, Vec3.sub,
    Vec3.divScalar, clampQ, liquidSensitivity, liquidSpring, liquidDamping,
    liquidMaxTilt, max_def, min_def]

/-- C2 (amended): for every frame with `delta ≥ 0`, the low-pass blaster
variant's tilt outputs stay within `[-maxTilt, maxTilt]` whenever they
start there; the spring liquid variant clamps only its target tilt and
its integrated tilt can leave the interval. -/
theorem C2_amended (delta : ℚ) (h : 0 ≤ delta) (pos : Vec3)
    (st : BlasterInertia) (hY : |st.tiltY| ≤ blasterMaxTilt)
    (hZ : |st.tiltZ| ≤ blasterMaxTilt) :
    |(blasterUpdate delta pos st).tiltY| ≤ blasterMaxTilt ∧
    |(blasterUpdate delta pos st).tiltZ| ≤ blasterMaxTilt := by
  obtain ⟨⟨hy1, hy2⟩, hz1, hz2⟩ := blasterUpdate_between delta h pos st
  obtain ⟨htY, htZ⟩ := blasterTarget_abs_le (refVelocity delta pos st.prevPos)
  constructor
  · rw [abs_le]
    exact ⟨le_trans (le_min (abs_le.mp hY).1 (abs_le.mp htY).1) hy1,
      le_trans hy2 (max_le (abs_le.mp hY).2 (abs_le.mp htY).2)⟩
  · rw [abs_le]
    exact ⟨le_trans (le_min (abs_le.mp hZ).1 (abs_le.mp htZ).1) hz1,
      le_trans hz2 (max_le (abs_le.mp hZ).2 (abs_le.mp htZ).2)⟩

/-- C2, witness for the amended theorem at a concrete input. -/
theorem C2_amended_witness :
    (0 : ℚ) ≤ 1 ∧ |exBlaster.tiltY| ≤ blasterMaxTilt ∧
    |exBlaster.tiltZ| ≤ blasterMaxTilt ∧
    (|(blasterUpdate 1 ⟨0, 0, 0⟩ exBlaster).tiltY| ≤ blasterMaxTilt ∧
      |(blasterUpdate 1 ⟨0, 0, 0⟩ exBlaster).tiltZ| ≤ blasterMaxTilt) :=
  ⟨by norm_num, by norm_num [exBlaster, blasterMaxTilt],
    by norm_num [exBlaster, blasterMaxTilt],
    C2_amended 1 (by norm_num) ⟨0, 0, 0⟩ exBlaster
      (by norm_num [exBlaster, blasterMaxTilt])
      (by norm_num [exBlaster, blasterMaxTilt])⟩

/-- C3, counterexample. The claim says a projectile is in the registry
between frame steps if and only if its `timeToLive` is `≥ 0` (and it has
not collided). On the code, the liveness check happens only at the START
of a step: a bullet that enters a step with `timeToLive = 1` and
`delta = 2` leaves the step still registered with `timeToLive = -1`. -/
theorem C3_counterexample :
    (stepFrame 2 exC3State).bullets.map Bullet.timeToLive = [-1] := by
  norm_num [stepFrame, exC3State, stepBulletsScene, processBullet, exC3Bullet,
    advanceBullet, hitIndices, hitIndicesFrom, hitTest, Vec3.distSq, Vec3.add,
    Vec3.smul]

/-- C3 (amended): after a frame step, a projectile is in the registry if
and only if it is the advanced image of a projectile whose `timeToLive`
was `≥ 0` at the START of that step and whose advanced position hit no
visible target (so its stored `timeToLive` may be negative, as low as
`-delta`, for one frame before removal); and — provided the scene's
bullet list matched the registry with distinct ids — removal from the
registry and detachment from the scene happen together within the same
frame step, leaving the two in sync. -/
theorem C3_amended (delta : ℚ) (st : SimState)
    (hsync : st.sceneBullets = st.bullets.map Bullet.id)
    (hnodup : (st.bullets.map Bullet.id).Nodup) :
    (∀ b', b' ∈ (stepFrame delta st).bullets ↔
      ∃ b ∈ st.bullets, ¬ b.timeToLive < 0 ∧ b' = advanceBullet delta b ∧
        hitIndices st.targets (advanceBullet delta b).position = []) ∧
    (stepFrame delta st).sceneBullets =
      (stepFrame delta st).bullets.map Bullet.id := by
  constructor
  · intro b'
    exact stepBulletsScene_fst_mem delta st.targets st.bullets st.sceneBullets b'
  · have h := stepBulletsScene_scene_sync delta st.targets st.bullets []
      hnodup (by simp)
    rw [List.nil_append] at h
    simp only [stepFrame, hsync]
    exact h

/-- C3, witness for the amended theorem at a concrete input. -/
theorem C3_amended_witness :
    exC3State.sceneBullets = exC3State.bullets.map Bullet.id ∧
    (exC3State.bullets.map Bullet.id).Nodup ∧
    ((∀ b', b' ∈ (stepFrame 2 exC3State).bullets ↔
      ∃ b ∈ exC3State.bullets, ¬ b.timeToLive < 0 ∧
        b' = advanceBullet 2 b ∧
        hitIndices exC3State.targets (advanceBullet 2 b).position = []) ∧
    (stepFrame 2 exC3State).sceneBullets =
      (stepFrame 2 exC3State).bullets.map Bullet.id) :=
  ⟨rfl, by simp [exC3State, exC3Bullet],
    C3_amended 2 exC3State rfl (by simp [exC3State, exC3Bullet])⟩

/-- C4: in `step(delta)`, a projectile whose `timeToLive` is negative at
the start of the frame is removed with no position advance and is never
evaluated for collision that frame — the result of processing it is
`(none, [])`, independent of the frame delta and of the targets, which
shows the liveness check precedes both the movement and the collision
test. -/
theorem C4_expiry_priority (delta : ℚ) (ts : List Target) (b : Bullet)
    (h : b.timeToLive < 0) :
    processBullet delta ts b = (none, []) ∧
    ∀ (delta' : ℚ) (ts' : List Target),
      processBullet delta ts b = processBullet delta' ts' b := by
  refine ⟨processBullet_expired delta ts b h, fun delta' ts' => ?_⟩
  rw [processBullet_expired delta ts b h, processBullet_expired delta' ts' b h]

/-- C4, witness at a concrete expired bullet surrounded by a target it
would otherwise hit. -/
theorem C4_expiry_priority_witness :
    exExpired.timeToLive < 0 ∧
    (processBullet 1 [exTargetA] exExpired = (none, []) ∧
      ∀ (delta' : ℚ) (ts' : List Target),
        processBullet 1 [exTargetA] exExpired = processBullet delta' ts' exExpired) :=
  ⟨by norm_num [exExpired],
    C4_expiry_priority 1 [exTargetA] exExpired (by norm_num [exExpired])⟩

/-- C5: for every frame with `delta ≥ 0`, the low-pass (blaster)
variant's updated tilt on each axis lies between its previous tilt and
the clamped target tilt (inclusive): the blend with factor
`min(1, damping * delta)` approaches the target monotonically and never
overshoots it. -/
theorem C5_no_overshoot (delta : ℚ) (h : 0 ≤ delta) (pos : Vec3)
    (st : BlasterInertia) :
    (min st.tiltY (blasterTargetY (refVelocity delta pos st.prevPos)) ≤
        (blasterUpdate delta pos st).tiltY ∧
      (blasterUpdate delta pos st).tiltY ≤
        max st.tiltY (blasterTargetY (refVelocity delta pos st.prevPos))) ∧
    (min st.tiltZ (blasterTargetZ (refVelocity delta pos st.prevPos)) ≤
        (blasterUpdate delta pos st).tiltZ ∧
      (blasterUpdate delta pos st).tiltZ ≤
        max st.tiltZ (blasterTargetZ (refVelocity delta pos st.prevPos))) :=
  blasterUpdate_between delta h pos st

/-- C5, witness at a concrete input. -/
theorem C5_no_overshoot_witness :
    (0 : ℚ) ≤ 1 ∧
    ((min exBlaster.tiltY (blasterTargetY (refVelocity 1 ⟨1, 0, 0⟩ exBlaster.prevPos)) ≤
        (blasterUpdate 1 ⟨1, 0, 0⟩ exBlaster).tiltY ∧
      (blasterUpdate 1 ⟨1, 0, 0⟩ exBlaster).tiltY ≤
        max exBlaster.tiltY (blasterTargetY (refVelocity 1 ⟨1, 0, 0⟩ exBlaster.prevPos))) ∧
    (min exBlaster.tiltZ (blasterTargetZ (refVelocity 1 ⟨1, 0, 0⟩ exBlaster.prevPos)) ≤
        (blasterUpdate 1 ⟨1, 0, 0⟩ exBlaster).tiltZ ∧
      (blasterUpdate 1 ⟨1, 0, 0⟩ exBlaster).tiltZ ≤
        max exBlaster.tiltZ (blasterTargetZ (refVelocity 1 ⟨1, 0, 0⟩ exBlaster.prevPos)))) :=
  ⟨by norm_num, C5_no_overshoot 1 (by norm_num) ⟨1, 0, 0⟩ exBlaster⟩

/-- C6: for every stored score value, the rendered display string is the
clamp of the score to `[0, 9999]` written in decimal and left-zero-padded
to 4 characters (the code's `updateScoreDisplay` agrees with the spec's
render formula); a stored `-5` renders as `"0000"`, a stored `15000`
renders as `"9999"`, while the stored value itself is never clamped — a
hit landing at stored score `15000` drives it to `15010`. -/
theorem C6_display (s : Int) :
    updateScoreDisplay s = specRender s ∧
    updateScoreDisplay (-5) = "0000" ∧
    updateScoreDisplay 15000 = "9999" ∧
    (stepFrame 0 exC6State).score = 15010 := by
  refine ⟨rfl, by decide, by decide, ?_⟩
  norm_num [stepFrame, exC6State, stepBulletsScene, processBullet, exBullet,
    exTargetA, advanceBullet, hitIndices, hitIndicesFrom, hitTest, Vec3.distSq,
    Vec3.add, Vec3.smul, List.cons_ne_nil]

/-- C7: a target participates in collision testing in a frame if and
only if its `visible` flag is true at that frame (so an invisible,
mid-respawn target is never hit), while the hit reaction (`onHit`, the
start of the shrink tween) does not change `visible` — only the shrink
tween's completion (`onShrinkComplete`) sets it false, so a shrinking
target stays eligible for collision throughout its shrink. -/
theorem C7_visible_gates (ts : List Target) (p : Vec3) (i : Nat) (t : Target)
    (hget : ts.get? i = some t) :
    (i ∈ hitIndices ts p ↔
      (t.visible = true ∧ Vec3.distSq t.position p < 1)) ∧
    (onHit t).visible = t.visible ∧
    (onShrinkComplete t).visible = false :=
  ⟨mem_hitIndices ts p i t hget, rfl, rfl⟩

/-- C7, witness at a concrete input. -/
theorem C7_visible_gates_witness :
    [exTargetA].get? 0 = some exTargetA ∧
    ((0 ∈ hitIndices [exTargetA] ⟨0, 0, 0⟩ ↔
      (exTargetA.visible = true ∧
        Vec3.distSq exTargetA.position ⟨0, 0, 0⟩ < 1)) ∧
    (onHit exTargetA).visible = exTargetA.visible ∧
    (onShrinkComplete exTargetA).visible = false) :=
  ⟨rfl, C7_visible_gates [exTargetA] ⟨0, 0, 0⟩ 0 exTargetA rfl⟩

/-- C8: when the fire trigger is pressed and no projectile template
exists (`blasterGroup.getObjectByName('bullet')` returns nothing because
the asset is not yet loaded), the spawn path is a silent no-op: the
whole module state — bullets registry, scene and all — is returned
unchanged, and the spawn function is total, so no error is raised. -/
theorem C8_spawn_silent_noop (st : SimState) : fireTrigger none st = st := rfl

/-- C9: the stored score starts at 0 and is only modified by adding 10
per confirmed hit, so after any sequence of events the score is a
non-negative multiple of 10, and no further event can decrease it. -/
theorem C9_score_invariant (evs : List GameEvent) :
    0 ≤ (run evs).score ∧ (10 : Int) ∣ (run evs).score ∧
    ∀ e : GameEvent, (run evs).score ≤ (applyEvent e (run evs)).score := by
  obtain ⟨h0, hd⟩ := foldl_score_invariant evs initState le_rfl (dvd_zero 10)
  exact ⟨h0, hd, fun e => applyEvent_score_mono e (run evs)⟩

/-- C10: removing a projectile by time-to-live expiry has no effect on
any other state: a frame step on a state whose first registered bullet
is expired produces exactly the same result as the frame step on the
state with that bullet deleted from the registry and its id removed from
the scene — same surviving bullets, same targets (positions, scales,
visibility), same score, hence same display string. -/
theorem C10_expiry_isolated (delta : ℚ) (b : Bullet) (bs : List Bullet)
    (scn : List Nat) (ts : List Target) (sc : Int) (h : b.timeToLive < 0) :
    stepFrame delta ⟨b :: bs, scn, ts, sc⟩ =
      stepFrame delta ⟨bs, scn.erase b.id, ts, sc⟩ := by
  simp only [stepFrame, stepBulletsScene, processBullet_expired delta ts b h,
    List.nil_append]

/-- C10, witness at a concrete input. -/
theorem C10_expiry_isolated_witness :
    exExpired.timeToLive < 0 ∧
    stepFrame 1 ⟨[exExpired], [9], [exTargetA], 0⟩ =
      stepFrame 1 ⟨[], List.erase [9] exExpired.id, [exTargetA], 0⟩ :=
  ⟨by norm_num [exExpired],
    C10_expiry_isolated 1 exExpired [] [9] [exTargetA] 0
      (by norm_num [exExpired])⟩
